import Mathlib

/-!
Shallow embedding of the scaledata/bigquery driver core: the schema-aware
value conversion pipeline (driver/columns.go, with the variant in the
unnamed source file) and the nested-row rerouting protocol
(driver/statement.go, QueryContext).
-/

namespace BigQueryDriver

/-- BigQuery field type tags (Go: bigquery.FieldType, a string enum).
Only the tags the driver inspects are distinguished; every other tag
behaves like `other`. -/
inductive FieldType where
  | date
  | time
  | dateTime
  | record
  | other
deriving DecidableEq, Repr

/-- Go civil.Date: a calendar date without location (Year, Month, Day). -/
structure CivilDate where
  year : Int
  month : Int
  day : Int
deriving DecidableEq, Repr

/-- Go civil.Time: a wall-clock time without location. -/
structure CivilTime where
  hour : Int
  minute : Int
  second : Int
  nanosecond : Int
deriving DecidableEq, Repr

/-- Go civil.DateTime: a civil date paired with a civil time. -/
structure CivilDateTime where
  date : CivilDate
  time : CivilTime
deriving DecidableEq, Repr

/-- Go time.Time as the driver constructs it: always built by
time.Date(y, mo, d, h, mi, s, ns, time.UTC), so the location is
invariably UTC and only the clock fields matter. Go time.Date
normalizes out-of-range fields; this embedding keeps the fields as
given, hence it is exact on in-range (valid civil) arguments. -/
structure Timestamp where
  year : Int
  month : Int
  day : Int
  hour : Int
  minute : Int
  second : Int
  nanosecond : Int
deriving DecidableEq, Repr

/-- Go bigquery.FieldSchema restricted to the fields the driver reads:
Name, Type and the nested Schema ([]*FieldSchema). The Go field Type is
written ftype here because Type is a Lean keyword. -/
inductive FieldSchema where
  | mk (name : String) (ftype : FieldType) (schema : List FieldSchema)

/-- Go bigquery.Schema = []*FieldSchema. -/
abbrev BigQuerySchema := List FieldSchema

/-- Name accessor of a FieldSchema (Go: .Name). -/
def FieldSchema.name : FieldSchema → String
  | .mk n _ _ => n

/-- Field-type accessor of a FieldSchema (Go: .Type). -/
def FieldSchema.ftype : FieldSchema → FieldType
  | .mk _ t _ => t

/-- Nested-schema accessor of a FieldSchema (Go: .Schema). -/
def FieldSchema.schema : FieldSchema → List FieldSchema
  | .mk _ _ s => s

/-- Go bigquery.Value (an interface value): the dynamic cell values the
driver inspects. `list` is []bigquery.Value, `rerouted` is the driver
type bigQueryReroutedColumn{values, schema}. `null` is a nil interface. -/
inductive BQValue where
  | null
  | int (n : Int)
  | str (s : String)
  | boolean (b : Bool)
  | civilDate (d : CivilDate)
  | civilTime (t : CivilTime)
  | civilDateTime (dt : CivilDateTime)
  | timestamp (t : Timestamp)
  | list (vs : List BQValue)
  | rerouted (values : List BQValue) (schema : BigQuerySchema)

/-- Go error values produced by the driver (errors.New carries a message). -/
abbrev Err := String

/-- Go adaptor.SchemaColumnAdaptor: AdaptValue(value) returns (driver.Value,
error). -/
abbrev SchemaColumnAdaptor := BQValue → BQValue × Option Err

/-- Go adaptor.SchemaAdaptor: GetColumnAdaptor(name) returns a
SchemaColumnAdaptor or nil. -/
abbrev SchemaAdaptor := String → Option SchemaColumnAdaptor

/-- Go driver type bigQueryColumn (columns.go): Name, nested Schema,
resolved Adaptor (nil allowed), FieldType. -/
structure BigQueryColumn where
  Name : String
  Schema : BigQuerySchema
  Adaptor : Option SchemaColumnAdaptor
  FieldType : FieldType

/-- Go driver type bigQueryColumns (columns.go): ordered column names and
the per-column converters. -/
structure BigQueryColumns where
  names : List String
  columns : List BigQueryColumn

/-- The three leading type-switch blocks of bigQueryColumn.ConvertValue in
columns.go, in source order (DATE, TIME, DATETIME). Each fires only when
the field type matches and the dynamic value has the expected civil type;
otherwise control falls through, which this embedding reports as none.
The TIME block calls time.Now().UTC() and anchors the wall-clock time to
the date of the call, so the current UTC date is an explicit argument. -/
def temporalCoerce (ft : FieldType) (value : BQValue) (now : CivilDate) :
    Option BQValue :=
  match ft, value with
  | .date, .civilDate d =>
      some (.timestamp ⟨d.year, d.month, d.day, 0, 0, 0, 0⟩)
  | .time, .civilTime t =>
      some (.timestamp ⟨now.year, now.month, now.day,
        t.hour, t.minute, t.second, t.nanosecond⟩)
  | .dateTime, .civilDateTime dt =>
      some (.timestamp ⟨dt.date.year, dt.date.month, dt.date.day,
        dt.time.hour, dt.time.minute, dt.time.second, dt.time.nanosecond⟩)
  | _, _ => none

/-- Lines 90-94 of columns.go: when the slice is non-empty and its first
element is not itself a slice of values, wrap the whole slice once, so the
shape is uniformly a sequence of records. -/
def wrapRows (values : List BQValue) : List BQValue :=
  match values with
  | [] => values
  | v0 :: _ =>
      match v0 with
      | .list _ => values
      | _ => [.list values]

/-- bigQueryColumn.ConvertValue (columns.go, lines 53-104): temporal
coercion first (returning immediately on a match), then the empty-schema
early return, then nested-sequence capture into a bigQueryReroutedColumn,
then the adaptor. now is the UTC date of the time.Now() call made by the
TIME block. -/
def ConvertValue (column : BigQueryColumn) (value : BQValue)
    (now : CivilDate) : BQValue × Option Err :=
  match temporalCoerce column.FieldType value now with
  | some converted => (converted, none)
  | none =>
      match column.Schema with
      | [] => (value, none)
      | _ :: _ =>
          let value1 : BQValue :=
            match value with
            | .list values => .rerouted (wrapRows values) column.Schema
            | _ => value
          match column.Adaptor with
          | some columnAdaptor => columnAdaptor value1
          | none => (value1, none)

/-- bigQueryColumns.ConvertColumnValue (columns.go, lines 24-31): bounds
check index > -1 and len(columns.columns) > index, convert through the
selected column, otherwise return the value unchanged with a nil error.
Go int indices are modelled as Int. -/
def ConvertColumnValue (columns : BigQueryColumns) (index : Int)
    (value : BQValue) (now : CivilDate) : BQValue × Option Err :=
  if -1 < index ∧ index < (columns.columns.length : Int) then
    match columns.columns.get? index.toNat with
    | some column => ConvertValue column value now
    | none => (value, none)
  else
    (value, none)

/-- bigQueryColumns.ColumnNames (columns.go, lines 33-35). -/
def ColumnNames (columns : BigQueryColumns) : List String :=
  columns.names

/-- createBigQuerySchema (columns.go, lines 106-130): walk the source
schema in order, resolve each adaptor by name when a schema adaptor is
supplied, and record name, nested schema and field type per column. -/
def createBigQuerySchema (schema : BigQuerySchema)
    (schemaAdaptor : Option SchemaAdaptor) : BigQueryColumns :=
  { names := schema.map FieldSchema.name
    columns := schema.map fun column =>
      { Name := column.name
        Schema := column.schema
        Adaptor :=
          match schemaAdaptor with
          | some sa => sa column.name
          | none => none
        FieldType := column.ftype } }

namespace Part000

/-- Zero-pad the decimal rendering of a nonnegative Int to two digits, as
the Go layout 15, 04, 05 renders in-range clock fields. -/
def pad2 (n : Int) : String :=
  if n < 10 then "0" ++ toString n else toString n

/-- Zero-pad the decimal rendering of a nonnegative Int to six digits, as
the Go fractional layout .000000 renders microseconds. -/
def pad6 (n : Int) : String :=
  let s := toString n
  String.pushn "" '0' (6 - s.length) ++ s

/-- Go tempTime.Format(BigQueryTimeLayout) in the unnamed source file: the
layout 15:04:05.000000 renders hour, minute and second two-digit
zero-padded and exactly six fractional digits (microseconds, nanoseconds
truncated by integer division). Exact for valid civil times. -/
def formatTime (t : CivilTime) : String :=
  pad2 t.hour ++ ":" ++ pad2 t.minute ++ ":" ++ pad2 t.second ++ "." ++
    pad6 (t.nanosecond.tdiv 1000)

/-- The three leading type-switch blocks of the ConvertValue variant in
the unnamed source file, in its source order (DATE, DATETIME, TIME): the
explicit nil checks there are subsumed by the civil type match, and TIME
converts to a formatted string instead of a timestamp, so no current date
enters. -/
def temporalCoerce (ft : FieldType) (value : BQValue) : Option BQValue :=
  match ft, value with
  | .date, .civilDate d =>
      some (.timestamp ⟨d.year, d.month, d.day, 0, 0, 0, 0⟩)
  | .dateTime, .civilDateTime dt =>
      some (.timestamp ⟨dt.date.year, dt.date.month, dt.date.day,
        dt.time.hour, dt.time.minute, dt.time.second, dt.time.nanosecond⟩)
  | .time, .civilTime t => some (.str (formatTime t))
  | _, _ => none

/-- bigQueryColumn.ConvertValue as written in the unnamed source file
(lines 56-112): identical to the columns.go pipeline apart from its
temporal blocks. -/
def ConvertValue (column : BigQueryColumn) (value : BQValue) :
    BQValue × Option Err :=
  match temporalCoerce column.FieldType value with
  | some converted => (converted, none)
  | none =>
      match column.Schema with
      | [] => (value, none)
      | _ :: _ =>
          let value1 : BQValue :=
            match value with
            | .list values => .rerouted (wrapRows values) column.Schema
            | _ => value
          match column.Adaptor with
          | some columnAdaptor => columnAdaptor value1
          | none => (value1, none)

end Part000

/-- Leap years of the proleptic Gregorian calendar Go time uses. -/
def isLeapYear (y : Int) : Bool :=
  y % 4 = 0 && (y % 100 ≠ 0 || y % 400 = 0)

/-- Number of days of month m of year y. -/
def daysInMonth (y m : Int) : Int :=
  if m = 2 then (if isLeapYear y then 29 else 28)
  else if m = 4 || m = 6 || m = 9 || m = 11 then 30
  else 31

/-- Validity of a civil date (Go civil.Date.IsValid): the fields are in
calendar range, exactly when Go time.Date performs no normalization on
them. -/
def CivilDate.IsValid (d : CivilDate) : Bool :=
  1 ≤ d.month && d.month ≤ 12 && 1 ≤ d.day && d.day ≤ daysInMonth d.year d.month

/-- Validity of a civil time (Go civil.Time.IsValid): clock fields in
range. -/
def CivilTime.IsValid (t : CivilTime) : Bool :=
  0 ≤ t.hour && t.hour ≤ 23 && 0 ≤ t.minute && t.minute ≤ 59 &&
    0 ≤ t.second && t.second ≤ 59 && 0 ≤ t.nanosecond && t.nanosecond ≤ 999999999

/-- Go driver.NamedValue: a bind argument with optional name, ordinal and
dynamic value. -/
structure NamedValue where
  Name : String
  Ordinal : Int
  Value : BQValue

/-- Modelled from the spec: the execution context, reduced to the one
capability the reroute path reads from it, an optional schema-adaptor
(section 6 of the spec; the adaptor package that stores and fetches it is
not under src). -/
abbrev Context := Option SchemaAdaptor

/-- Modelled from the spec: adaptor.GetSchemaAdaptor(ctx) returns the
schema-adaptor capability carried by the context, or nil. -/
def GetSchemaAdaptor (ctx : Context) : Option SchemaAdaptor :=
  ctx

/-- Modelled from the spec: adaptor.RerouteQuery, a fixed reserved query
string distinct from any legal query text (its literal is defined in the
adaptor package, not under src; only its role as a sentinel matters). -/
def RerouteQuery : String :=
  "reroute-sentinel"

/-- Error message of errors.New at statement.go line 66; the spec names
this failure MissingReroutingArgument. -/
def MissingReroutingArgument : Err :=
  "expected a rerouting argument"

/-- Error message of errors.New at statement.go line 71; the spec names
this failure InvalidReroutingArgument. -/
def InvalidReroutingArgument : Err :=
  "expected a rerouting argument with rows"

/-- Error message of errors.New at statement.go line 76; the spec names
this failure MissingSchemaAdaptor. -/
def MissingSchemaAdaptor : Err :=
  "expected a rerouting schema adaptor"

/-- Modelled from the spec: a captured row tuple is an ordered sequence of
raw values (spec section 3, RowSource); an element of the captured values
that is a sequence is that row tuple. -/
def rowCells : BQValue → List BQValue
  | .list cells => cells
  | v => [v]

/-- Modelled from the spec: createSourceFromColumn (its source file is not
under src). Per spec sections 4.5 and 4.6 it builds the in-memory row
source over the captured values; reading materializes each row with every
cell passed through the Value Converter at its column position, exactly as
a top-level query result would be. The rows are modelled extensionally as
the fully read-out sequence of converted cells, each with the error its
conversion reported; now is the UTC date at read time. -/
def createSourceFromColumn (schema : BigQueryColumns)
    (values : List BQValue) (now : CivilDate) :
    List (List (BQValue × Option Err)) :=
  values.map fun row =>
    (rowCells row).mapIdx fun i cell =>
      ConvertColumnValue schema (Int.ofNat i) cell now

/-- Go driver type bigQueryRows, modelled extensionally: the column names
the cursor reports and the converted rows it yields. -/
structure BigQueryRows where
  columnNames : List String
  rows : List (List (BQValue × Option Err))

/-- Result of QueryContext: either a local cursor built by the rerouting
protocol with no remote call, or a query sent to the remote executor (the
remote path is outside the modelled core; its bigquery.Query construction
and network read are represented by the query text and arguments it would
send). -/
inductive QueryResult where
  | rows (r : BigQueryRows)
  | remote (query : String) (args : List NamedValue)

/-- Go driver type bigQueryStatement, reduced to the query text (the
connection is only used on the remote path). -/
structure BigQueryStatement where
  query : String

/-- bigQueryStatement.QueryContext (statement.go, lines 53-100). When the
statement text equals adaptor.RerouteQuery: fewer than one argument fails;
a first argument that is not a bigQueryReroutedColumn fails; a context
without schema adaptor fails; otherwise the rerouted schema is built with
createBigQuerySchema and a cursor over the captured values is returned
with no remote call. Any other statement goes to the remote executor. -/
def QueryContext (statement : BigQueryStatement) (ctx : Context)
    (args : List NamedValue) (now : CivilDate) : Except Err QueryResult :=
  if statement.query = RerouteQuery then
    match args with
    | [] => .error MissingReroutingArgument
    | arg :: _ =>
        match arg.Value with
        | .rerouted values schema =>
            match GetSchemaAdaptor ctx with
            | none => .error MissingSchemaAdaptor
            | some schemaAdaptor =>
                let s := createBigQuerySchema schema (some schemaAdaptor)
                .ok (.rows
                  { columnNames := ColumnNames s
                    rows := createSourceFromColumn s values now })
        | _ => .error InvalidReroutingArgument
  else
    .ok (.remote statement.query args)

/-! Helper lemmas shared by the claim theorems. -/

/-- A slice of values never matches any temporal coercion block. -/
theorem temporalCoerce_list (ft : FieldType) (vs : List BQValue)
    (now : CivilDate) : temporalCoerce ft (.list vs) now = none := by
  cases ft <;> rfl

/-- A timestamp never matches any temporal coercion block. -/
theorem temporalCoerce_timestamp (ft : FieldType) (t : Timestamp)
    (now : CivilDate) : temporalCoerce ft (.timestamp t) now = none := by
  cases ft <;> rfl

/-- Under the tag other, no temporal coercion block matches. -/
theorem temporalCoerce_other (value : BQValue) (now : CivilDate) :
    temporalCoerce .other value now = none := by
  cases value <;> rfl

/-- A value that is not of the civil type the field type expects (nil
included) matches no temporal coercion block: each block requires its own
tag together with its own civil type, so a mismatched civil value, such
as a civil time under a DATE tag, also falls through. -/
theorem temporalCoerce_eq_none_of_mismatch (ft : FieldType) (value : BQValue)
    (now : CivilDate)
    (h1 : ft = .date → ∀ d, value ≠ .civilDate d)
    (h2 : ft = .time → ∀ t, value ≠ .civilTime t)
    (h3 : ft = .dateTime → ∀ dt, value ≠ .civilDateTime dt) :
    temporalCoerce ft value now = none := by
  cases ft <;> cases value <;>
    first
    | rfl
    | exact absurd rfl (h1 rfl _)
    | exact absurd rfl (h2 rfl _)
    | exact absurd rfl (h3 rfl _)

/-- Part000 version of temporalCoerce_eq_none_of_mismatch. -/
theorem part000_temporalCoerce_eq_none_of_mismatch (ft : FieldType)
    (value : BQValue)
    (h1 : ft = .date → ∀ d, value ≠ .civilDate d)
    (h2 : ft = .time → ∀ t, value ≠ .civilTime t)
    (h3 : ft = .dateTime → ∀ dt, value ≠ .civilDateTime dt) :
    Part000.temporalCoerce ft value = none := by
  cases ft <;> cases value <;>
    first
    | rfl
    | exact absurd rfl (h1 rfl _)
    | exact absurd rfl (h2 rfl _)
    | exact absurd rfl (h3 rfl _)

/-- The singleton wrap fires exactly when the head is not a slice. -/
theorem wrapRows_not_list (v0 : BQValue) (rest : List BQValue)
    (h : ∀ ws, v0 ≠ .list ws) :
    wrapRows (v0 :: rest) = [.list (v0 :: rest)] := by
  cases v0 <;> first | rfl | exact absurd rfl (h _)

/-! Claim theorems. -/

/-- C6: for every schema and raw value, ConvertColumnValue with a negative
column index, or an index at least the number of columns, returns the raw
value unchanged with no error. -/
theorem c6_out_of_range_index_is_noop (columns : BigQueryColumns)
    (index : Int) (value : BQValue) (now : CivilDate)
    (h : index < 0 ∨ (columns.columns.length : Int) ≤ index) :
    ConvertColumnValue columns index value now = (value, none) := by
  unfold ConvertColumnValue
  rw [if_neg]
  omega

/-- Witness for c6_out_of_range_index_is_noop at index -1 of an empty
column list. -/
theorem c6_out_of_range_index_is_noop_witness :
    ((-1 : Int) < 0 ∨ (((⟨[], []⟩ : BigQueryColumns).columns.length : Int) ≤ -1)) ∧
    ConvertColumnValue ⟨[], []⟩ (-1) (.int 5) ⟨2024, 1, 1⟩ = (.int 5, none) :=
  ⟨Or.inl (by decide),
    c6_out_of_range_index_is_noop ⟨[], []⟩ (-1) (.int 5) ⟨2024, 1, 1⟩
      (Or.inl (by decide))⟩

/-- C8: for every column tagged DATETIME and every valid civil datetime
value, convert returns an absolute timestamp anchored UTC whose year,
month, day, hour, minute, second and nanosecond fields equal those of the
input exactly. -/
theorem c8_datetime_preserves_fields (column : BigQueryColumn)
    (dt : CivilDateTime) (now : CivilDate)
    (hft : column.FieldType = .dateTime)
    (hd : dt.date.IsValid = true) (ht : dt.time.IsValid = true) :
    ConvertValue column (.civilDateTime dt) now =
      (.timestamp ⟨dt.date.year, dt.date.month, dt.date.day,
        dt.time.hour, dt.time.minute, dt.time.second,
        dt.time.nanosecond⟩, none) := by
  unfold ConvertValue temporalCoerce
  rw [hft]

/-- Witness for c8_datetime_preserves_fields at 2021-02-03 04:05:06.000000007. -/
theorem c8_datetime_preserves_fields_witness :
    (⟨"c", [], none, .dateTime⟩ : BigQueryColumn).FieldType = .dateTime ∧
    CivilDate.IsValid ⟨2021, 2, 3⟩ = true ∧
    CivilTime.IsValid ⟨4, 5, 6, 7⟩ = true ∧
    ConvertValue ⟨"c", [], none, .dateTime⟩
      (.civilDateTime ⟨⟨2021, 2, 3⟩, ⟨4, 5, 6, 7⟩⟩) ⟨2024, 1, 1⟩ =
      (.timestamp ⟨2021, 2, 3, 4, 5, 6, 7⟩, none) :=
  ⟨rfl, by decide, by decide,
    c8_datetime_preserves_fields ⟨"c", [], none, .dateTime⟩
      ⟨⟨2021, 2, 3⟩, ⟨4, 5, 6, 7⟩⟩ ⟨2024, 1, 1⟩ rfl (by decide) (by decide)⟩

/-- C7 counterexample: a column tagged DATE with a non-empty nested schema
and a resolved adaptor converts the civil date 2021-02-03 to the midnight
UTC timestamp, but converting that output again under the same column
descriptor hands it to the adaptor and yields a different value, so the
claimed unconditional idempotence fails. -/
theorem c7_counterexample :
    ConvertValue ⟨"d", [.mk "f" .other []], some (fun _ => (.int 0, none)), .date⟩
        (.civilDate ⟨2021, 2, 3⟩) ⟨2024, 1, 1⟩ =
      (.timestamp ⟨2021, 2, 3, 0, 0, 0, 0⟩, none) ∧
    ConvertValue ⟨"d", [.mk "f" .other []], some (fun _ => (.int 0, none)), .date⟩
        (.timestamp ⟨2021, 2, 3, 0, 0, 0, 0⟩) ⟨2024, 1, 1⟩ =
      (.int 0, none) ∧
    ((.int 0 : BQValue), (none : Option Err)) ≠
      (.timestamp ⟨2021, 2, 3, 0, 0, 0, 0⟩, none) :=
  ⟨rfl, rfl, by simp⟩

/-- C7 amended: for every column tagged DATE and every valid civil date d,
convert returns the absolute timestamp at midnight UTC on the calendar
date of d; converting that output again under the same descriptor returns
it unchanged provided the column carries no resolved adaptor or its nested
schema is empty; with both a non-empty nested schema and a resolved
adaptor, the second conversion instead returns the adaptor result on the
timestamp. -/
theorem c7_amended_date_midnight_idempotent_without_adaptor
    (column : BigQueryColumn) (d : CivilDate) (now now2 : CivilDate)
    (hft : column.FieldType = .date) (hd : d.IsValid = true) :
    ConvertValue column (.civilDate d) now =
      (.timestamp ⟨d.year, d.month, d.day, 0, 0, 0, 0⟩, none) ∧
    (column.Adaptor = none ∨ column.Schema = [] →
      ConvertValue column (.timestamp ⟨d.year, d.month, d.day, 0, 0, 0, 0⟩) now2 =
        (.timestamp ⟨d.year, d.month, d.day, 0, 0, 0, 0⟩, none)) ∧
    (∀ a f fs, column.Adaptor = some a → column.Schema = f :: fs →
      ConvertValue column (.timestamp ⟨d.year, d.month, d.day, 0, 0, 0, 0⟩) now2 =
        a (.timestamp ⟨d.year, d.month, d.day, 0, 0, 0, 0⟩)) := by
  refine ⟨?_, ?_, ?_⟩
  · unfold ConvertValue temporalCoerce
    rw [hft]
  · intro h
    unfold ConvertValue
    rw [temporalCoerce_timestamp]
    rcases h with ha | hs
    · cases hS : column.Schema with
      | nil => rfl
      | cons f fs => rw [ha]
    · rw [hs]
  · intro a f fs ha hs
    unfold ConvertValue
    rw [temporalCoerce_timestamp, hs, ha]

/-- Witness for c7_amended_date_midnight_idempotent_without_adaptor on an
adaptor-free DATE column at 2021-02-03. -/
theorem c7_amended_witness :
    (⟨"d", [], none, .date⟩ : BigQueryColumn).FieldType = .date ∧
    CivilDate.IsValid ⟨2021, 2, 3⟩ = true ∧
    ConvertValue ⟨"d", [], none, .date⟩ (.civilDate ⟨2021, 2, 3⟩) ⟨2024, 1, 1⟩ =
      (.timestamp ⟨2021, 2, 3, 0, 0, 0, 0⟩, none) ∧
    ConvertValue ⟨"d", [], none, .date⟩
        (.timestamp ⟨2021, 2, 3, 0, 0, 0, 0⟩) ⟨2024, 5, 6⟩ =
      (.timestamp ⟨2021, 2, 3, 0, 0, 0, 0⟩, none) :=
  ⟨rfl, by decide,
    (c7_amended_date_midnight_idempotent_without_adaptor
      ⟨"d", [], none, .date⟩ ⟨2021, 2, 3⟩ ⟨2024, 1, 1⟩ ⟨2024, 5, 6⟩ rfl (by decide)).1,
    (c7_amended_date_midnight_idempotent_without_adaptor
      ⟨"d", [], none, .date⟩ ⟨2021, 2, 3⟩ ⟨2024, 1, 1⟩ ⟨2024, 5, 6⟩ rfl (by decide)).2.1
      (Or.inl rfl)⟩

/-- C5: for every column with a non-empty nested schema and no resolved
adaptor, a non-empty sequence whose first element is itself a sequence is
captured unchanged in a NestedToken carrying the column nested schema,
and a non-empty sequence whose first element is not a sequence is
singleton-wrapped before capture. -/
theorem c5_nested_sequence_capture (column : BigQueryColumn)
    (v0 : BQValue) (rest : List BQValue) (now : CivilDate)
    (hs : column.Schema ≠ []) (ha : column.Adaptor = none) :
    ((∃ ws, v0 = .list ws) →
      ConvertValue column (.list (v0 :: rest)) now =
        (.rerouted (v0 :: rest) column.Schema, none)) ∧
    ((∀ ws, v0 ≠ .list ws) →
      ConvertValue column (.list (v0 :: rest)) now =
        (.rerouted [.list (v0 :: rest)] column.Schema, none)) := by
  obtain ⟨f, fs, hS⟩ : ∃ f fs, column.Schema = f :: fs := by
    cases hC : column.Schema with
    | nil => exact absurd hC hs
    | cons f fs => exact ⟨f, fs, rfl⟩
  constructor
  · rintro ⟨ws, rfl⟩
    unfold ConvertValue
    rw [temporalCoerce_list, hS, ha]
    rfl
  · intro h
    unfold ConvertValue
    rw [temporalCoerce_list, hS, ha]
    show ((BQValue.rerouted (wrapRows (v0 :: rest)) (f :: fs) : BQValue),
      (none : Option Err)) = _
    rw [wrapRows_not_list v0 rest h]

/-- Witness for c5_nested_sequence_capture: the already-rows shape
[[a,b],[c,d]] is captured unchanged and the one-record shape [a,b] is
singleton-wrapped, on an adaptor-free column with nested schema [f]. -/
theorem c5_nested_sequence_capture_witness :
    (⟨"n", [.mk "f" .other []], none, .other⟩ : BigQueryColumn).Schema ≠ [] ∧
    (⟨"n", [.mk "f" .other []], none, .other⟩ : BigQueryColumn).Adaptor = none ∧
    ConvertValue ⟨"n", [.mk "f" .other []], none, .other⟩
        (.list [.list [.int 1, .int 2], .list [.int 3, .int 4]]) ⟨2024, 1, 1⟩ =
      (.rerouted [.list [.int 1, .int 2], .list [.int 3, .int 4]]
        [.mk "f" .other []], none) ∧
    ConvertValue ⟨"n", [.mk "f" .other []], none, .other⟩
        (.list [.int 1, .int 2]) ⟨2024, 1, 1⟩ =
      (.rerouted [.list [.int 1, .int 2]] [.mk "f" .other []], none) :=
  ⟨by simp, rfl,
    (c5_nested_sequence_capture ⟨"n", [.mk "f" .other []], none, .other⟩
      (.list [.int 1, .int 2]) [.list [.int 3, .int 4]] ⟨2024, 1, 1⟩
      (by simp) rfl).1 ⟨[.int 1, .int 2], rfl⟩,
    (c5_nested_sequence_capture ⟨"n", [.mk "f" .other []], none, .other⟩
      (.int 1) [.int 2] ⟨2024, 1, 1⟩
      (by simp) rfl).2 (by intro ws h; cases h)⟩

/-- C4 counterexample: a column with empty nested schema, tag other and a
resolved adaptor that maps everything to 7 does not invoke that adaptor:
convert returns the raw value 1 unchanged with no error, not the adaptor
result. -/
theorem c4_counterexample :
    ConvertValue ⟨"c", [], some (fun _ => (.int 7, none)), .other⟩
        (.int 1) ⟨2024, 1, 1⟩ = (.int 1, none) ∧
    (fun (_ : BQValue) => ((.int 7 : BQValue), (none : Option Err))) (.int 1) =
      (.int 7, none) ∧
    ((.int 1 : BQValue), (none : Option Err)) ≠ (.int 7, none) :=
  ⟨rfl, rfl, by simp⟩

/-- C4 amended: for every column whose nested schema is empty and whose
type tag and value do not match a temporal coercion case, convert returns
the raw value unchanged with no error even when an adaptor was resolved;
a resolved adaptor is invoked on the working value only when the nested
schema is non-empty. -/
theorem c4_amended_empty_schema_skips_adaptor (column : BigQueryColumn)
    (value : BQValue) (now : CivilDate)
    (ht : temporalCoerce column.FieldType value now = none) :
    (column.Schema = [] → ConvertValue column value now = (value, none)) ∧
    (∀ a, column.Adaptor = some a → column.Schema ≠ [] →
      (∀ vs, value ≠ .list vs) → ConvertValue column value now = a value) := by
  constructor
  · intro hs
    unfold ConvertValue
    rw [ht, hs]
  · intro a ha hs hv
    obtain ⟨f, fs, hS⟩ : ∃ f fs, column.Schema = f :: fs := by
      cases hC : column.Schema with
      | nil => exact absurd hC hs
      | cons f fs => exact ⟨f, fs, rfl⟩
    unfold ConvertValue
    rw [ht, hS, ha]
    cases value <;> first | rfl | exact absurd rfl (hv _)

/-- Witness for c4_amended_empty_schema_skips_adaptor: the raw value 1
passes through an empty-schema column carrying an adaptor, and the same
adaptor is invoked once the nested schema is non-empty. -/
theorem c4_amended_empty_schema_skips_adaptor_witness :
    temporalCoerce (⟨"c", [], some (fun _ => (.int 7, none)), .other⟩ :
      BigQueryColumn).FieldType (.int 1) ⟨2024, 1, 1⟩ = none ∧
    ConvertValue ⟨"c", [], some (fun _ => (.int 7, none)), .other⟩
      (.int 1) ⟨2024, 1, 1⟩ = (.int 1, none) :=
  ⟨rfl,
    (c4_amended_empty_schema_skips_adaptor
      ⟨"c", [], some (fun _ => (.int 7, none)), .other⟩ (.int 1) ⟨2024, 1, 1⟩
      rfl).1 rfl⟩

/-- C3 counterexample: converting the same civil time 01:02:03.000000004
under the same TIME column descriptor on two different calendar days
returns two different values, because the TIME block of columns.go anchors
the wall-clock time to the date of the time.Now() call; so conversion is
not a function of (ColumnDescriptor, RawValue) alone. -/
theorem c3_counterexample :
    ConvertValue ⟨"t", [], none, .time⟩ (.civilTime ⟨1, 2, 3, 4⟩) ⟨2021, 1, 1⟩ ≠
      ConvertValue ⟨"t", [], none, .time⟩ (.civilTime ⟨1, 2, 3, 4⟩) ⟨2021, 1, 2⟩ := by
  show ((.timestamp ⟨2021, 1, 1, 1, 2, 3, 4⟩ : BQValue), (none : Option Err)) ≠
    (.timestamp ⟨2021, 1, 2, 1, 2, 3, 4⟩, none)
  simp

/-- C3 amended: value conversion is deterministic and depends only on the
column descriptor, the raw value and the current date; the current date
enters only through the TIME block of columns.go when the raw value is a
civil time, so for every other descriptor-value pair two invocations at
different times return the same result, and the ConvertValue variant of
the unnamed source file takes no current time at all. -/
theorem c3_amended_pure_except_time_block (column : BigQueryColumn)
    (value : BQValue) (now now' : CivilDate)
    (h : column.FieldType = .time → ∀ t, value ≠ .civilTime t) :
    ConvertValue column value now = ConvertValue column value now' := by
  have hT : temporalCoerce column.FieldType value now =
      temporalCoerce column.FieldType value now' := by
    unfold temporalCoerce
    cases hft : column.FieldType <;> cases value <;>
      first
      | rfl
      | exact absurd rfl (h hft _)
  unfold ConvertValue
  rw [hT]

/-- Witness for c3_amended_pure_except_time_block: a DATE column converts
the same civil date identically on two different days. -/
theorem c3_amended_pure_except_time_block_witness :
    ((⟨"d", [], none, .date⟩ : BigQueryColumn).FieldType = .time →
      ∀ t, (.civilDate ⟨2021, 2, 3⟩ : BQValue) ≠ .civilTime t) ∧
    ConvertValue ⟨"d", [], none, .date⟩ (.civilDate ⟨2021, 2, 3⟩) ⟨2024, 1, 1⟩ =
      ConvertValue ⟨"d", [], none, .date⟩ (.civilDate ⟨2021, 2, 3⟩) ⟨2025, 6, 7⟩ :=
  ⟨fun hft => absurd hft (by simp),
    c3_amended_pure_except_time_block ⟨"d", [], none, .date⟩
      (.civilDate ⟨2021, 2, 3⟩) ⟨2024, 1, 1⟩ ⟨2025, 6, 7⟩
      (fun hft => absurd hft (by simp))⟩

/-- C9: temporal coercion never returns an error: for every column tagged
DATE, TIME or DATETIME whose raw value is nil or not of the civil type
that tag expects (a mismatched civil value, such as a civil time under a
DATE tag, included), convert proceeds exactly as it would for a
non-temporal column, in both the columns.go pipeline and the variant of
the unnamed source file; in particular a nil value for such a column with
empty nested schema and no adaptor is returned unchanged with no error. -/
theorem c9_temporal_mismatch_falls_through (column : BigQueryColumn)
    (value : BQValue) (now : CivilDate)
    (hft : column.FieldType = .date ∨ column.FieldType = .time ∨
      column.FieldType = .dateTime)
    (h1 : column.FieldType = .date → ∀ d, value ≠ .civilDate d)
    (h2 : column.FieldType = .time → ∀ t, value ≠ .civilTime t)
    (h3 : column.FieldType = .dateTime → ∀ dt, value ≠ .civilDateTime dt) :
    ConvertValue column value now =
      ConvertValue { column with FieldType := .other } value now ∧
    Part000.ConvertValue column value =
      Part000.ConvertValue { column with FieldType := .other } value ∧
    (column.Schema = [] → column.Adaptor = none →
      ConvertValue column value now = (value, none)) := by
  have hT : temporalCoerce column.FieldType value now = none :=
    temporalCoerce_eq_none_of_mismatch _ _ _ h1 h2 h3
  have hT2 : temporalCoerce .other value now = none :=
    temporalCoerce_other _ _
  have hP : Part000.temporalCoerce column.FieldType value = none :=
    part000_temporalCoerce_eq_none_of_mismatch _ _ h1 h2 h3
  have hP2 : Part000.temporalCoerce .other value = none :=
    part000_temporalCoerce_eq_none_of_mismatch .other _
      (fun hf => nomatch hf) (fun hf => nomatch hf) (fun hf => nomatch hf)
  refine ⟨?_, ?_, ?_⟩
  · unfold ConvertValue
    rw [hT,
      show ({ column with FieldType := FieldType.other } :
        BigQueryColumn).FieldType = FieldType.other from rfl,
      hT2,
      show ({ column with FieldType := FieldType.other } :
        BigQueryColumn).Schema = column.Schema from rfl,
      show ({ column with FieldType := FieldType.other } :
        BigQueryColumn).Adaptor = column.Adaptor from rfl]
  · unfold Part000.ConvertValue
    rw [hP,
      show ({ column with FieldType := FieldType.other } :
        BigQueryColumn).FieldType = FieldType.other from rfl,
      hP2,
      show ({ column with FieldType := FieldType.other } :
        BigQueryColumn).Schema = column.Schema from rfl,
      show ({ column with FieldType := FieldType.other } :
        BigQueryColumn).Adaptor = column.Adaptor from rfl]
  · intro hs _
    unfold ConvertValue
    rw [hT, hs]

/-- Witness for c9_temporal_mismatch_falls_through: under a DATE column
with empty nested schema and no adaptor, both a mismatched civil time
value (not the expected civil date) and a nil value are returned unchanged
with no error. -/
theorem c9_temporal_mismatch_falls_through_witness :
    ((⟨"d", [], none, .date⟩ : BigQueryColumn).FieldType = .date ∨
      (⟨"d", [], none, .date⟩ : BigQueryColumn).FieldType = .time ∨
      (⟨"d", [], none, .date⟩ : BigQueryColumn).FieldType = .dateTime) ∧
    ConvertValue ⟨"d", [], none, .date⟩ (.civilTime ⟨1, 2, 3, 4⟩) ⟨2024, 1, 1⟩ =
      (.civilTime ⟨1, 2, 3, 4⟩, none) ∧
    ConvertValue ⟨"d", [], none, .date⟩ .null ⟨2024, 1, 1⟩ = (.null, none) :=
  ⟨Or.inl rfl,
    (c9_temporal_mismatch_falls_through ⟨"d", [], none, .date⟩
      (.civilTime ⟨1, 2, 3, 4⟩) ⟨2024, 1, 1⟩ (Or.inl rfl)
      (fun _ d h => nomatch h) (fun hf => nomatch hf)
      (fun hf => nomatch hf)).2.2 rfl rfl,
    (c9_temporal_mismatch_falls_through ⟨"d", [], none, .date⟩ .null ⟨2024, 1, 1⟩
      (Or.inl rfl) (fun _ d h => nomatch h) (fun _ t h => nomatch h)
      (fun _ dt h => nomatch h)).2.2 rfl rfl⟩

/-- C10 counterexample: a column tagged DATE with a non-empty nested
schema and no adaptor receives the non-sequence raw value 2021-01-02
(a civil date); the claim would have it returned unchanged, but the
temporal block converts it to a timestamp first. -/
theorem c10_counterexample :
    ConvertValue ⟨"d", [.mk "f" .other []], none, .date⟩
        (.civilDate ⟨2021, 1, 2⟩) ⟨2024, 1, 1⟩ =
      (.timestamp ⟨2021, 1, 2, 0, 0, 0, 0⟩, none) ∧
    (.timestamp ⟨2021, 1, 2, 0, 0, 0, 0⟩ : BQValue) ≠ .civilDate ⟨2021, 1, 2⟩ :=
  ⟨rfl, by simp⟩

/-- C10 amended: for every column with a non-empty nested schema whose
type tag and value do not match a temporal coercion case, a raw value
that is not a sequence of values produces no NestedToken: it becomes the
working value, passed to the resolved adaptor when one exists and
otherwise returned unchanged with no error; and an empty sequence is
captured in a NestedToken with empty values, not singleton-wrapped. -/
theorem c10_amended_non_sequence_working_value (column : BigQueryColumn)
    (value : BQValue) (now : CivilDate)
    (ht : temporalCoerce column.FieldType value now = none)
    (hs : column.Schema ≠ []) :
    ((∀ vs, value ≠ .list vs) →
      (column.Adaptor = none → ConvertValue column value now = (value, none)) ∧
      (∀ a, column.Adaptor = some a → ConvertValue column value now = a value)) ∧
    (column.Adaptor = none →
      ConvertValue column (.list []) now = (.rerouted [] column.Schema, none)) := by
  obtain ⟨f, fs, hS⟩ : ∃ f fs, column.Schema = f :: fs := by
    cases hC : column.Schema with
    | nil => exact absurd hC hs
    | cons f fs => exact ⟨f, fs, rfl⟩
  constructor
  · intro hv
    constructor
    · intro ha
      unfold ConvertValue
      rw [ht, hS, ha]
      cases value <;> first | rfl | exact absurd rfl (hv _)
    · intro a ha
      unfold ConvertValue
      rw [ht, hS, ha]
      cases value <;> first | rfl | exact absurd rfl (hv _)
  · intro ha
    unfold ConvertValue
    rw [temporalCoerce_list, hS, ha]
    rfl

/-- Witness for c10_amended_non_sequence_working_value: the scalar 5 under
an adaptor-free nested column passes through unchanged, and the empty
sequence is captured with empty values. -/
theorem c10_amended_non_sequence_working_value_witness :
    temporalCoerce (⟨"n", [.mk "f" .other []], none, .other⟩ :
      BigQueryColumn).FieldType (.int 5) ⟨2024, 1, 1⟩ = none ∧
    (⟨"n", [.mk "f" .other []], none, .other⟩ : BigQueryColumn).Schema ≠ [] ∧
    ConvertValue ⟨"n", [.mk "f" .other []], none, .other⟩ (.int 5) ⟨2024, 1, 1⟩ =
      (.int 5, none) ∧
    ConvertValue ⟨"n", [.mk "f" .other []], none, .other⟩ (.list []) ⟨2024, 1, 1⟩ =
      (.rerouted [] [.mk "f" .other []], none) :=
  ⟨rfl, by simp,
    ((c10_amended_non_sequence_working_value
      ⟨"n", [.mk "f" .other []], none, .other⟩ (.int 5) ⟨2024, 1, 1⟩ rfl
      (by simp)).1 (fun vs h => by cases h)).1 rfl,
    (c10_amended_non_sequence_working_value
      ⟨"n", [.mk "f" .other []], none, .other⟩ (.int 5) ⟨2024, 1, 1⟩ rfl
      (by simp)).2 rfl⟩

/-- C1 counterexample: a reroute query with two bind arguments, both
valid NestedTokens, does not fail at all — QueryContext only requires
len(args) < 1 to be false and ignores every argument after the first —
so the claim that any argument count other than exactly one fails with
MissingReroutingArgument is false. -/
theorem c1_counterexample :
    QueryContext ⟨RerouteQuery⟩ (some (fun _ => none))
        [⟨"", 1, .rerouted [] [.mk "tag" .other []]⟩,
         ⟨"", 2, .rerouted [] [.mk "tag" .other []]⟩] ⟨2024, 1, 1⟩ =
      .ok (.rows ⟨["tag"], []⟩) ∧
    QueryContext ⟨RerouteQuery⟩ (some (fun _ => none))
        [⟨"", 1, .rerouted [] [.mk "tag" .other []]⟩,
         ⟨"", 2, .rerouted [] [.mk "tag" .other []]⟩] ⟨2024, 1, 1⟩ ≠
      .error MissingReroutingArgument :=
  ⟨rfl, by simp [QueryContext, RerouteQuery, GetSchemaAdaptor]⟩

/-- C1 amended: when the statement text equals the reroute sentinel,
QueryContext fails with MissingReroutingArgument exactly when zero bind
arguments are supplied (arguments beyond the first are ignored, so two or
more can succeed); fails with InvalidReroutingArgument when at least one
argument is supplied and the first argument value is not a NestedToken;
fails with MissingSchemaAdaptor when the first argument is a NestedToken
but the execution context carries no schema-adaptor capability; these are
the only reroute failures, checked in that order, and with all three
checks passed it returns a local cursor. -/
theorem c1_amended_reroute_preconditions (ctx : Context)
    (args : List NamedValue) (now : CivilDate) :
    (args = [] →
      QueryContext ⟨RerouteQuery⟩ ctx args now = .error MissingReroutingArgument) ∧
    (∀ a rest, args = a :: rest → (∀ vs s, a.Value ≠ .rerouted vs s) →
      QueryContext ⟨RerouteQuery⟩ ctx args now = .error InvalidReroutingArgument) ∧
    (∀ a rest vs s, args = a :: rest → a.Value = .rerouted vs s → ctx = none →
      QueryContext ⟨RerouteQuery⟩ ctx args now = .error MissingSchemaAdaptor) ∧
    (∀ a rest vs s sa, args = a :: rest → a.Value = .rerouted vs s →
      ctx = some sa →
      ∃ r, QueryContext ⟨RerouteQuery⟩ ctx args now = .ok (.rows r)) ∧
    (∀ e, QueryContext ⟨RerouteQuery⟩ ctx args now = .error e →
      e = MissingReroutingArgument ∨ e = InvalidReroutingArgument ∨
        e = MissingSchemaAdaptor) := by
  refine ⟨?_, ?_, ?_, ?_, ?_⟩
  · rintro rfl
    rfl
  · rintro a rest rfl hv
    obtain ⟨nm, od, av⟩ := a
    cases av <;> first | rfl | exact absurd rfl (hv _ _)
  · rintro a rest vs s rfl hV rfl
    obtain ⟨nm, od, av⟩ := a
    have hav : av = .rerouted vs s := hV
    subst hav
    rfl
  · rintro a rest vs s sa rfl hV rfl
    obtain ⟨nm, od, av⟩ := a
    have hav : av = .rerouted vs s := hV
    subst hav
    exact ⟨_, rfl⟩
  · intro e
    rcases args with _ | ⟨⟨nm, od, av⟩, rest⟩
    · intro h
      have h2 : (Except.error MissingReroutingArgument : Except Err QueryResult) =
        .error e := h
      exact Or.inl (Except.error.inj h2).symm
    · cases av
      case rerouted values schema =>
        cases ctx with
        | none =>
            intro h
            have h2 : (Except.error MissingSchemaAdaptor : Except Err QueryResult) =
              .error e := h
            exact Or.inr (Or.inr (Except.error.inj h2).symm)
        | some sa =>
            intro h
            exact Except.noConfusion h
      all_goals
        intro h
      all_goals
        have h2 : (Except.error InvalidReroutingArgument : Except Err QueryResult) =
          .error e := h
        exact Or.inr (Or.inl (Except.error.inj h2).symm)

/-- Witness for c1_amended_reroute_preconditions: with zero bind
arguments the reroute query fails with MissingReroutingArgument. -/
theorem c1_amended_reroute_preconditions_witness :
    QueryContext ⟨RerouteQuery⟩ none [] ⟨2024, 1, 1⟩ =
      .error MissingReroutingArgument :=
  (c1_amended_reroute_preconditions none [] ⟨2024, 1, 1⟩).1 rfl

/-- C2: a reroute query whose first bind argument carries a NestedToken
with values V and schema S, in a context supplying a (possibly empty)
schema-adaptor capability, returns a local cursor — not a remote query —
whose column names are the names of S in order and whose rows are the row
tuples of V with each cell converted by the Value Converter at its column
position under the Schema built from S with that capability. -/
theorem c2_reroute_returns_converted_rows (values : List BQValue)
    (schema : BigQuerySchema) (sa : SchemaAdaptor) (arg : NamedValue)
    (rest : List NamedValue) (now : CivilDate)
    (hv : arg.Value = .rerouted values schema) :
    QueryContext ⟨RerouteQuery⟩ (some sa) (arg :: rest) now =
      .ok (.rows
        { columnNames := schema.map FieldSchema.name
          rows := values.map fun row =>
            (rowCells row).mapIdx fun i cell =>
              ConvertColumnValue (createBigQuerySchema schema (some sa))
                (Int.ofNat i) cell now }) := by
  obtain ⟨nm, od, av⟩ := arg
  have hav : av = .rerouted values schema := hv
  subst hav
  rfl

/-- Witness for c2_reroute_returns_converted_rows: rerouting the token
with values [["x"],["y"]] and schema [tag] under an empty capability
yields the cursor with column name tag and rows ["x"], ["y"]. -/
theorem c2_reroute_returns_converted_rows_witness :
    QueryContext ⟨RerouteQuery⟩ (some (fun _ => none))
        [⟨"", 1, .rerouted [.list [.str "x"], .list [.str "y"]]
          [.mk "tag" .other []]⟩] ⟨2024, 1, 1⟩ =
      .ok (.rows ⟨["tag"], [[(.str "x", none)], [(.str "y", none)]]⟩) :=
  c2_reroute_returns_converted_rows
    [.list [.str "x"], .list [.str "y"]] [.mk "tag" .other []]
    (fun _ => none) ⟨"", 1, .rerouted [.list [.str "x"], .list [.str "y"]]
      [.mk "tag" .other []]⟩ [] ⟨2024, 1, 1⟩ rfl

end BigQueryDriver
